import Mathlib

/-!
Verification of the instavibe-bootstrap repository's natural-language
specification against a shallow embedding of its Python source.

The embedding covers:
* the JSON value model used for `json.dumps` / `json.loads` payloads;
* the server-sent-events relay `generate_stream` in
  `instavibe/ally_routes.py` (stream_introvert_ally_plan);
* the planning generator `call_agent_for_plan` in
  `instavibe/introvertally.py`;
* the Spanner query wrappers `run_query` (instavibe/app.py) and
  `run_graph_query` (instavibe/db.py), together with the query-building
  data-access functions and the transactional insert helpers
  `add_post_db` and `add_full_event_with_details_db`.

External services (the Spanner database and the remote agent stream) are
modelled as explicit inputs: a database call's outcome, the sequence of
events delivered by the remote agent, and the success of a transaction
commit are parameters of the embedded functions.
-/

namespace Instavibe

/-- Model of a JSON value (the values handled by Python's `json` module).
Numbers are modelled as rationals. -/
inductive Json where
  | null
  | bool (b : Bool)
  | num (q : Rat)
  | str (s : String)
  | arr (elems : List Json)
  | obj (fields : List (String × Json))
deriving Repr

/-- Model of `json.dumps` on JSON-serializable values (Python stdlib).
Uses the default separators of `json.dumps`. -/
def Json.dumps : Json → String
  | .null => "null"
  | .bool b => if b then "true" else "false"
  | .num q => toString q
  | .str s => "\"" ++ s ++ "\""
  | .arr es => "[" ++ String.intercalate ", " (es.attach.map (fun e => Json.dumps e.1)) ++ "]"
  | .obj fs => "\x7b" ++ String.intercalate ", "
      (fs.attach.map (fun kv => "\"" ++ kv.1.1 ++ "\": " ++ Json.dumps kv.1.2)) ++ "\x7d"
decreasing_by
  · have := List.sizeOf_lt_of_mem e.2
    simp at *
    omega
  · obtain ⟨⟨k, v⟩, hm⟩ := kv
    have := List.sizeOf_lt_of_mem hm
    simp at *
    omega

/-- A Python value that may appear in the `data` field of a yielded event:
either a JSON-serializable value or a non-serializable object (for which
`json.dumps` raises `TypeError`); `typeName` records `str(type(obj))`. -/
inductive PyVal where
  | json (j : Json)
  | nonserial (typeName : String)
deriving Repr

/-- `json.dumps` applied to a Python value: `none` models a raised
`TypeError`. -/
def PyVal.dumps : PyVal → Option String
  | .json j => some j.dumps
  | .nonserial _ => none

/-- Whether `json.dumps` succeeds on the value. -/
def PyVal.isSerializable : PyVal → Bool
  | .json _ => true
  | .nonserial _ => false

/-- An event dictionary yielded by `call_agent_for_plan` or consumed by
`generate_stream`: `type?` is the "type" entry (absent keys give
`event_data.get("type", "thought")` its default) and `data` the "data"
entry (`event_data.get("data")`, `None` i.e. `.json .null` when absent). -/
structure PyEvent where
  type? : Option String
  data : PyVal
deriving Repr

/-- A server-sent-events message as built in `ally_routes.py`:
`f"event: {event_type}\ndata: {data_payload}\n\n"`. -/
def sseMsg (eventType dataPayload : String) : String :=
  "event: " ++ eventType ++ "\ndata: " ++ dataPayload ++ "\n\n"

/-- A session side effect performed while streaming:
`session['ally_plan_details'] = ...` or `session.modified = True`. -/
inductive SessionOp where
  | store (key : String) (val : PyVal)
  | markModified
deriving Repr

/-- Per-event behaviour of the loop body of `generate_stream`
(`ally_routes.py`, lines 101-124): the SSE message yielded for the event
and the session operations performed afterwards. On a `TypeError` from
`json.dumps` the payload is replaced by the fallback error object and the
event type by "thought_error". -/
def streamStep (e : PyEvent) : String × List SessionOp :=
  let event_type := e.type?.getD "thought"
  let data_to_send := e.data
  match data_to_send.dumps with
  | some data_payload =>
      (sseMsg event_type data_payload,
       if event_type = "plan_complete" ∨ event_type = "error" then
         [SessionOp.store "ally_plan_details" data_to_send, SessionOp.markModified]
       else [])
  | none =>
      let data_payload := (Json.obj
        [("error", Json.str "Data serialization issue"),
         ("original_type", Json.str (match data_to_send with
            | .nonserial t => t
            | .json _ => ""))]).dumps
      (sseMsg "thought_error" data_payload, [])

/-- The `generate_stream` generator of `stream_introvert_ally_plan`
(`ally_routes.py`, lines 98-141). `events` is the sequence of events the
`call_agent_for_plan` generator yields; `genErr` is `some msg` when that
generator raises after delivering `events` (the `except Exception`
branch). Returns the yielded SSE messages and the session operations. -/
def generate_stream (events : List PyEvent) (genErr : Option String) :
    List String × List SessionOp :=
  let msgs := events.map (fun e => (streamStep e).1)
  let ops := events.flatMap (fun e => (streamStep e).2)
  match genErr with
  | none =>
      (msgs ++ [sseMsg "stream_end" (Json.obj []).dumps], ops)
  | some m =>
      let error_payload_data := Json.obj
        [("message", Json.str ("Server error during plan generation: " ++ m)),
         ("raw_output", Json.str "Check server console logs for full traceback.")]
      (msgs ++ [sseMsg "error" error_payload_data.dumps],
       ops ++ [SessionOp.store "ally_plan_details" (PyVal.json error_payload_data),
               SessionOp.markModified])

/-! ### The planning generator `call_agent_for_plan` (introvertally.py)

The remote agent stream iterated by the generator (the `#REPLACE ME
Query remote agent get plan` placeholder) is an external service call;
it is modelled as an input: the list of events it delivers and an
optional exception raised during iteration. `json.loads` (Python
stdlib) is modelled as a parameter `loads`. -/

/-- The `tool_code` entry of an agent part: a dict whose optional
`name` entry is read with `tool_code.get('name', 'Unnamed tool')`. -/
structure ToolInfo where
  name : Option String
deriving Repr

/-- `tool_code.get('name', 'Unnamed tool')`. -/
def ToolInfo.displayName (ti : ToolInfo) : String :=
  ti.name.getD "Unnamed tool"

/-- One entry of an agent event's `content.parts` list:
a dict with a non-empty `text` entry, a dict without truthy text (whose
`tool_code` / `tool_code_output` entries may be present), or a non-dict
value (skipped by the `isinstance(part, dict)` check). -/
inductive AgentPart where
  | textPart (t : String)
  | toolPart (code : Option ToolInfo) (hasOutput : Bool)
  | notDict
deriving Repr

/-- One event delivered by the remote agent stream. `raisesOnAccess`
models an event value for which `event.get('content', ...)` raises (the
event is not a dict), triggering the inner `except Exception` branch. -/
structure AgentEvent where
  raisesOnAccess : Bool
  parts : List AgentPart
deriving Repr

/-- A yielded thought event `{"type": "thought", "data": s}`. -/
def thoughtEvent (s : String) : PyEvent :=
  ⟨some "thought", .json (.str s)⟩

/-- The inner parts loop of `call_agent_for_plan` (introvertally.py,
lines 100-114) on one event's parts: returns the yielded thought events
and the text appended to `accumulated_json_str`. A part with
`tool_code_output` but no `tool_code` raises (`tool_code.get` on
`None`), which the inner `except` turns into an error thought and which
aborts the remaining parts of this event. -/
def processParts (idx : Nat) : List AgentPart → List PyEvent × String
  | [] => ([], "")
  | AgentPart.notDict :: rest => processParts idx rest
  | AgentPart.textPart t :: rest =>
      let r := processParts idx rest
      (thoughtEvent ("Agent: \"" ++ t ++ "\"") :: r.1, t ++ r.2)
  | AgentPart.toolPart code hasOutput :: rest =>
      let consider := match code with
        | some ti =>
            [thoughtEvent ("Agent is considering using a tool: " ++ ti.displayName ++ ".")]
        | none => []
      if hasOutput then
        match code with
        | some ti =>
            let r := processParts idx rest
            (consider ++
              [thoughtEvent ("Agent received output from tool " ++ ti.displayName ++ ".")] ++ r.1,
             r.2)
        | none =>
            (consider ++
              [thoughtEvent ("Error processing agent event part " ++ toString idx ++
                ": AttributeError")], "")
      else
        let r := processParts idx rest
        (consider ++ r.1, r.2)

/-- Processing of one agent event inside the stream loop (the inner
`try`/`except` of introvertally.py lines 94-114). -/
def processAgentEvent (idx : Nat) (ev : AgentEvent) : List PyEvent × String :=
  if ev.raisesOnAccess then
    ([thoughtEvent ("Error processing agent event part " ++ toString idx ++
      ": AttributeError")], "")
  else processParts idx ev.parts

/-- Markdown extraction of introvertally.py lines 124-134: when
"```json" occurs in the accumulated string, keep what lies between the
first "```json" and the last following "```" (Python
`split("```json", 1)[1].rsplit("```", 1)[0].strip()`); otherwise the
string is left unchanged. -/
def extractJsonBlock (acc : String) : String :=
  let ps := acc.splitOn "```json"
  if ps.length ≤ 1 then acc
  else
    let rest := String.intercalate "```json" ps.tail
    let qs := rest.splitOn "```"
    if qs.length ≤ 1 then rest.trim
    else (String.intercalate "```" qs.dropLast).trim

/-- The `call_agent_for_plan` generator (introvertally.py, lines
12-149), as the list of events it yields. `agentEvents` are the events
delivered by the remote agent stream and `streamErr` is `some msg` when
the stream raises after delivering them (the outer `except Exception`);
`loads` models `json.loads`, returning `none` on `JSONDecodeError`. -/
def call_agent_for_plan (user_name planned_date location_n_perference : String)
    (selected_friend_names_list : List String)
    (agentEvents : List AgentEvent) (streamErr : Option String)
    (loads : String → Option Json) : List PyEvent :=
  let friendsStr := String.intercalate ", " selected_friend_names_list
  let header : List PyEvent :=
    [thoughtEvent "--- IntrovertAlly Agent Call Initiated ---",
     thoughtEvent ("Session ID for this run: " ++ user_name),
     thoughtEvent ("User: " ++ user_name),
     thoughtEvent ("Planned Date: " ++ planned_date),
     thoughtEvent ("Location/Preference: " ++ location_n_perference),
     thoughtEvent ("Selected Friends: " ++ friendsStr),
     thoughtEvent ("Initiating plan for " ++ user_name ++ " on " ++ planned_date ++
       " regarding " ++ location_n_perference ++ " with friends: " ++ friendsStr ++ "."),
     thoughtEvent ("Sending detailed planning prompt to agent for " ++ user_name ++ " event."),
     thoughtEvent "--- Agent Response Stream Starting ---"]
  let processed := agentEvents.enum.map (fun p => processAgentEvent p.1 p.2)
  let eventYields := processed.flatMap Prod.fst
  let accumulated_json_str := String.join (processed.map Prod.snd)
  match streamErr with
  | some m =>
      header ++ eventYields ++
      [thoughtEvent ("Critical error during agent stream query: " ++ m),
       ⟨some "error", .json (.obj
         [("message", .str ("Error during agent interaction: " ++ m)),
          ("raw_output", .str accumulated_json_str)])⟩]
  | none =>
      let acc := extractJsonBlock accumulated_json_str
      header ++ eventYields ++
      [thoughtEvent "--- End of Agent Response Stream ---"] ++
      (if acc = "" then
        [thoughtEvent "Agent did not provide any text content in its response.",
         ⟨some "error", .json (.obj
           [("message", .str "Agent returned no content."),
            ("raw_output", .str "")])⟩]
      else
        match loads acc with
        | some final_result_json => [⟨some "plan_complete", .json final_result_json⟩]
        | none =>
          [thoughtEvent "Failed to parse the agent output as a valid plan.",
           thoughtEvent ("Raw output received: " ++ acc),
           ⟨some "error", .json (.obj
             [("message", .str "JSON parsing error"),
              ("raw_output", .str acc)])⟩])

/-- `getLastD` looks only at the last (non-empty) segment of an
append. -/
theorem getLastD_append_cons {α : Type} (l1 : List α) (x : α) (l2 : List α) (d : α) :
    (l1 ++ x :: l2).getLastD d = (x :: l2).getLastD d := by
  induction l1 generalizing d with
  | nil => rfl
  | cons a t ih =>
      rw [List.cons_append, List.getLastD_cons, ih, List.getLastD_cons, List.getLastD_cons]

/-- C9: terminal-event guarantee. Whatever the agent stream does —
delivers any events, raises, yields text that fails to parse, or yields
no text — `call_agent_for_plan` yields a non-empty sequence whose last
event has type "plan_complete" or type "error". -/
theorem call_agent_for_plan_terminal_event
    (user_name planned_date location_n_perference : String)
    (friends : List String) (agentEvents : List AgentEvent)
    (streamErr : Option String) (loads : String → Option Json) :
    call_agent_for_plan user_name planned_date location_n_perference friends
        agentEvents streamErr loads ≠ [] ∧
    (((call_agent_for_plan user_name planned_date location_n_perference friends
        agentEvents streamErr loads).getLastD ⟨none, .json .null⟩).type? =
          some "plan_complete" ∨
     ((call_agent_for_plan user_name planned_date location_n_perference friends
        agentEvents streamErr loads).getLastD ⟨none, .json .null⟩).type? =
          some "error") := by
  cases streamErr with
  | some m =>
      refine ⟨by simp [call_agent_for_plan], Or.inr ?_⟩
      simp only [call_agent_for_plan, List.cons_append, List.nil_append,
        List.getLastD_cons, getLastD_append_cons]
      rfl
  | none =>
      refine ⟨by simp [call_agent_for_plan], ?_⟩
      simp only [call_agent_for_plan]
      split
      · right
        simp only [List.cons_append, List.nil_append, List.getLastD_cons,
          getLastD_append_cons]
        rfl
      · split
        · left
          simp only [List.cons_append, List.nil_append, List.getLastD_cons,
            getLastD_append_cons]
          rfl
        · right
          simp only [List.cons_append, List.nil_append, List.getLastD_cons,
            getLastD_append_cons]
          rfl

/-- C1: for every finite sequence of source events whose data fields are
JSON-serializable, `generate_stream` yields, in order, exactly one
server-sent-events message per source event — `event: <type>` (the
event's "type" field, defaulting to "thought"), `data: <json>` (the JSON
serialization of the event's "data" field) and a blank line — and after
the source is exhausted exactly one final "stream_end" message. -/
theorem generate_stream_sse_relay (events : List PyEvent)
    (h : ∀ e ∈ events, e.data.isSerializable = true) :
    (generate_stream events none).1 =
      events.map (fun e => sseMsg (e.type?.getD "thought") (e.data.dumps.getD ""))
        ++ [sseMsg "stream_end" (Json.obj []).dumps] := by
  simp only [generate_stream]
  congr 1
  apply List.map_congr_left
  intro e he
  have hser := h e he
  cases hd : e.data with
  | json j => simp [streamStep, PyVal.dumps, hd]
  | nonserial t => rw [hd] at hser; simp [PyVal.isSerializable] at hser

/-- Witness for `generate_stream_sse_relay` at a concrete two-event
stream. -/
theorem generate_stream_sse_relay_witness :
    (∀ e ∈ ([⟨some "plan_complete", .json (.str "done")⟩, ⟨none, .json .null⟩] :
        List PyEvent), e.data.isSerializable = true) ∧
    (generate_stream
        [⟨some "plan_complete", .json (.str "done")⟩, ⟨none, .json .null⟩] none).1 =
      ([⟨some "plan_complete", .json (.str "done")⟩, ⟨none, .json .null⟩] :
        List PyEvent).map
          (fun e => sseMsg (e.type?.getD "thought") (e.data.dumps.getD ""))
        ++ [sseMsg "stream_end" (Json.obj []).dumps] :=
  ⟨by simp [PyVal.isSerializable],
   generate_stream_sse_relay _ (by simp [PyVal.isSerializable])⟩

/-- C4: session protocol of the stream relay. Every session write of
`generate_stream` targets the key 'ally_plan_details' (followed by
marking the session modified), and on a normally-terminating source the
writes are exactly one store of the original (un-serialized) data object
plus a modified-mark for each emitted event whose type is
"plan_complete" or "error". -/
theorem generate_stream_session_protocol :
    (∀ (events : List PyEvent) (genErr : Option String),
      ((generate_stream events genErr).2.all fun op =>
        match op with
        | .store k _ => k == "ally_plan_details"
        | .markModified => true) = true)
    ∧ (∀ events : List PyEvent, (generate_stream events none).2 =
        events.flatMap fun e =>
          if e.data.isSerializable = true ∧
              (e.type?.getD "thought" = "plan_complete" ∨
               e.type?.getD "thought" = "error") then
            [SessionOp.store "ally_plan_details" e.data, SessionOp.markModified]
          else []) := by
  constructor
  · intro events genErr
    have hstep : ∀ e : PyEvent, ∀ op ∈ (streamStep e).2,
        (match op with
         | SessionOp.store k _ => k == "ally_plan_details"
         | SessionOp.markModified => true) = true := by
      intro e op hop
      cases hd : e.data with
      | json j =>
          simp only [streamStep, hd, PyVal.dumps] at hop
          split at hop <;> simp_all <;> rcases hop with rfl | rfl <;> simp
      | nonserial t =>
          simp [streamStep, hd, PyVal.dumps] at hop
    rw [List.all_eq_true]
    intro op hop
    cases genErr with
    | none =>
        simp only [generate_stream] at hop
        rw [List.mem_flatMap] at hop
        obtain ⟨e, _, hope⟩ := hop
        exact hstep e op hope
    | some m =>
        simp only [generate_stream, List.mem_append] at hop
        rcases hop with hop | hop
        · rw [List.mem_flatMap] at hop
          obtain ⟨e, _, hope⟩ := hop
          exact hstep e op hope
        · simp at hop
          rcases hop with rfl | rfl <;> simp
  · intro events
    simp only [generate_stream]
    apply List.flatMap_congr
    intro e _
    cases hd : e.data with
    | json j =>
        simp only [streamStep, hd, PyVal.dumps, PyVal.isSerializable]
        split <;> simp_all
    | nonserial t =>
        simp [streamStep, hd, PyVal.dumps, PyVal.isSerializable]

/-! ### Spanner access layer (instavibe/app.py and instavibe/db.py)

The managed database is external: the outcome of a `snapshot.execute_sql`
call (rows delivered, or an API error raised while iterating) and the
success of a `db.run_in_transaction` commit are inputs of the embedded
functions. -/

/-- A Spanner parameter type from `google.cloud.spanner_v1.param_types`. -/
inductive SpannerType where
  | STRING
  | INT64
  | FLOAT64
  | TIMESTAMP
  | ARRAY (elem : SpannerType)
deriving Repr, DecidableEq

/-- A value sent to or received from Spanner. `commitTimestamp` is the
`spanner.COMMIT_TIMESTAMP` sentinel; timestamps carry their ISO text. -/
inductive SqlVal where
  | str (s : String)
  | int (n : Int)
  | float (q : Rat)
  | timestamp (iso : String)
  | nullV
  | commitTimestamp
  | strArray (xs : List String)
deriving Repr, DecidableEq

/-- An error raised by the database client: `spanner` covers the caught
`exceptions.NotFound / PermissionDenied / InvalidArgument` classes,
`other` any other exception. -/
inductive DbErr where
  | spanner (msg : String)
  | other (msg : String)
deriving Repr, DecidableEq

/-- The outcome of one `snapshot.execute_sql` call: the rows it streams,
or an error raised while executing/iterating. -/
inductive DbOutcome where
  | rows (rs : List (List SqlVal))
  | err (e : DbErr)
deriving Repr

/-- Result of a Python call: a value, or a raised exception. -/
inductive PyResult (α : Type) where
  | ok (a : α)
  | raised (exc : String)
deriving Repr, DecidableEq

/-- An external database operation issued by the repository. -/
inductive ExtOp where
  | executeSql
  | runInTransaction
deriving Repr, DecidableEq

/-- One insertion step of building a Python dict: an existing key's value
is replaced in place, a new key is appended. -/
def pyDictInsert {V : Type} (d : List (String × V)) (kv : String × V) :
    List (String × V) :=
  if d.any (fun p => p.1 == kv.1) then
    d.map (fun p => if p.1 == kv.1 then (p.1, kv.2) else p)
  else d ++ [kv]

/-- Auxiliary accumulator recursion for `pyDict`. -/
def pyDictAux {V : Type} (acc : List (String × V)) :
    List (String × V) → List (String × V)
  | [] => acc
  | kv :: rest => pyDictAux (pyDictInsert acc kv) rest

/-- Python `dict(pairs)`: first-occurrence key order, last value wins. -/
def pyDict {V : Type} (l : List (String × V)) : List (String × V) :=
  pyDictAux [] l

/-- Result of the `run_query` wrapper: the returned value or raised
exception, the flash messages emitted, the console log lines, and the
external operations issued. -/
structure RunQueryRes where
  result : PyResult (List (List (String × SqlVal)))
  flashes : List String
  logs : List String
  extOps : List ExtOp
deriving Repr

/-- The `run_query` wrapper of instavibe/app.py (lines 58-138).
`dbAvailable` models the module-global `db`; `outcome` the behaviour of
`snapshot.execute_sql`; `expected_fields` the keyword argument; and
`dynFields` the fallback `[field.name for field in results.fields]`
lookup (`none` when that access raises `AttributeError`, which the code
converts into a `ValueError`). -/
def run_query (dbAvailable : Bool) (outcome : DbOutcome)
    (expected_fields : Option (List String))
    (dynFields : Option (List String)) : RunQueryRes :=
  match dbAvailable with
  | false =>
      { result := .raised "ConnectionError: Spanner database connection not initialized."
      , flashes := []
      , logs := ["Error: Database connection is not available."]
      , extOps := [] }
  | true =>
      let field_names? : Option (List String) :=
        match expected_fields with
        | some fs => if fs = [] then dynFields else some fs
        | none => dynFields
      match field_names? with
      | none =>
          { result := .ok []
          , flashes := ["Internal error processing query results."]
          , logs := ["Query Processing Error: Could not determine field names for query results."]
          , extOps := [.executeSql] }
      | some field_names =>
          match outcome with
          | .rows rs =>
              { result := .ok
                  ((rs.filter (fun row => row.length = field_names.length)).map
                    (fun row => pyDict (field_names.zip row)))
              , flashes := []
              , logs := []
              , extOps := [.executeSql] }
          | .err (.spanner m) =>
              { result := .ok []
              , flashes := ["Database error: " ++ m]
              , logs := ["Spanner Error: " ++ m]
              , extOps := [.executeSql] }
          | .err (.other m) =>
              { result := .raised m
              , flashes := ["An unexpected server error occurred while fetching data."]
              , logs := ["An unexpected error occurred during query execution or processing: " ++ m]
              , extOps := [.executeSql] }

/-- Result of the `run_graph_query` wrapper of instavibe/db.py: the
Python return value (`none` models Python `None`; the function never
raises), the flash messages (db.py never calls `flash`), the console
log lines and the external operations issued. -/
structure GraphQueryRes where
  result : Option (List (List (String × SqlVal)))
  flashes : List String
  logs : List String
  extOps : List ExtOp
deriving Repr

/-- The `run_graph_query` wrapper of instavibe/db.py (lines 48-101). -/
def run_graph_query (dbAvailable : Bool) (outcome : DbOutcome)
    (expected_fields : Option (List String)) : GraphQueryRes :=
  match dbAvailable with
  | false =>
      { result := none
      , flashes := []
      , logs := ["Error: Database connection is not available."]
      , extOps := [] }
  | true =>
      let field_names? : Option (List String) :=
        match expected_fields with
        | some fs => if fs = [] then none else some fs
        | none => none
      match field_names? with
      | none =>
          { result := none
          , flashes := []
          , logs := ["Error: expected_fields must be provided to run_graph_query."]
          , extOps := [.executeSql] }
      | some field_names =>
          match outcome with
          | .rows rs =>
              { result := some
                  ((rs.filter (fun row => row.length = field_names.length)).map
                    (fun row => pyDict (field_names.zip row)))
              , flashes := []
              , logs := []
              , extOps := [.executeSql] }
          | .err (.spanner m) =>
              { result := none
              , flashes := []
              , logs := ["Spanner Graph Query Error: " ++ m]
              , extOps := [.executeSql] }
          | .err (.other m) =>
              { result := none
              , flashes := []
              , logs := ["An unexpected error occurred during graph query execution or processing: " ++ m]
              , extOps := [.executeSql] }

/-! ### Transactional inserts (instavibe/app.py) -/

/-- A Spanner `transaction.insert` mutation. -/
structure Mutation where
  table : String
  columns : List String
  values : List (List SqlVal)
deriving Repr, DecidableEq

/-- `None`-defaulting string conversion for `dict.get` results. -/
def optStr : Option String → SqlVal
  | some s => .str s
  | none => .nullV

/-- The `_insert_post` transaction body of `add_post_db`
(instavibe/app.py, lines 377-390); `now` is the
`datetime.now(timezone.utc)` value used for `post_timestamp`. -/
def _insert_post (post_id author_id text : String) (sentiment : Option String)
    (now : String) : List Mutation :=
  [{ table := "Post"
   , columns := ["post_id", "author_id", "text", "sentiment", "post_timestamp", "create_time"]
   , values := [[.str post_id, .str author_id, .str text, optStr sentiment,
                 .timestamp now, .commitTimestamp]] }]

/-- `add_post_db` (instavibe/app.py, lines 371-400). The database state
is the log of committed mutations; `commitOk` is whether
`db.run_in_transaction` commits. Returns the Python result, the new
state and the external operations issued. -/
def add_post_db (dbAvailable commitOk : Bool)
    (post_id author_id text : String) (sentiment : Option String)
    (now : String) (s : List Mutation) :
    PyResult Bool × List Mutation × List ExtOp :=
  match dbAvailable with
  | false =>
      (.raised "ConnectionError: Spanner database connection not initialized.", s, [])
  | true =>
      let ms := _insert_post post_id author_id text sentiment now
      if commitOk then (.ok true, s ++ ms, [.runInTransaction])
      else (.ok false, s, [.runInTransaction])

/-- One entry of `locations_data`: a location dict as read with
`loc_data.get(...)`; latitude/longitude default to `0.0` when absent. -/
structure LocationData where
  name : Option String
  description : Option String
  latitude : Option Rat
  longitude : Option Rat
  address : Option String
deriving Repr

/-- The Event-row insert of `_insert_event_and_attendee`
(instavibe/app.py, lines 425-434). -/
def eventMutation (event_id event_name description : String)
    (event_date : SqlVal) : Mutation :=
  { table := "Event"
  , columns := ["event_id", "name", "description", "event_date", "create_time"]
  , values := [[.str event_id, .str event_name, .str description, event_date,
                .commitTimestamp]] }

/-- The Location-row insert of `_insert_event_and_attendee`
(instavibe/app.py, lines 440-448). -/
def locationMutation (location_id : String) (loc_data : LocationData) : Mutation :=
  { table := "Location"
  , columns := ["location_id", "name", "description", "latitude", "longitude",
                "address", "create_time"]
  , values := [[.str location_id, optStr loc_data.name, optStr loc_data.description,
                .float (loc_data.latitude.getD 0), .float (loc_data.longitude.getD 0),
                optStr loc_data.address, .commitTimestamp]] }

/-- The EventLocation-link insert of `_insert_event_and_attendee`
(instavibe/app.py, lines 450-454). -/
def eventLocationMutation (event_id location_id : String) : Mutation :=
  { table := "EventLocation"
  , columns := ["event_id", "location_id", "create_time"]
  , values := [[.str event_id, .str location_id, .commitTimestamp]] }

/-- The Attendance-row insert of `_insert_event_and_attendee`
(instavibe/app.py, lines 458-465). -/
def attendanceMutation (event_id attendee_id_to_add : String) : Mutation :=
  { table := "Attendance"
  , columns := ["event_id", "person_id", "attendance_time"]
  , values := [[.str event_id, .str attendee_id_to_add, .commitTimestamp]] }

/-- The `_insert_event_and_attendee` transaction body of
`add_full_event_with_details_db` (instavibe/app.py, lines 423-465):
the Event row, then per location a Location row and an EventLocation
link (with a fresh `uuid.uuid4()` id, modelled as `uuidGen` applied to
the location's position), then one Attendance row per attendee id. -/
def _insert_event_and_attendee (event_id event_name description : String)
    (event_date : SqlVal) (locations_data : List LocationData)
    (attendee_ids : List String) (uuidGen : Nat → String) : List Mutation :=
  [eventMutation event_id event_name description event_date]
  ++ locations_data.enum.flatMap (fun p =>
      [locationMutation (uuidGen p.1) p.2,
       eventLocationMutation event_id (uuidGen p.1)])
  ++ attendee_ids.map (attendanceMutation event_id)

/-- `add_full_event_with_details_db` (instavibe/app.py, lines 402-474):
runs `_insert_event_and_attendee` in a single `db.run_in_transaction`;
returns True on commit, False when the transaction raises — in which
case the state is unchanged (Spanner transactions are atomic). -/
def add_full_event_with_details_db (dbAvailable commitOk : Bool)
    (event_id event_name description : String) (event_date : SqlVal)
    (locations_data : List LocationData) (attendee_ids : List String)
    (uuidGen : Nat → String) (s : List Mutation) :
    PyResult Bool × List Mutation × List ExtOp :=
  match dbAvailable with
  | false =>
      (.raised "ConnectionError: Spanner database connection not initialized.", s, [])
  | true =>
      let ms := _insert_event_and_attendee event_id event_name description event_date
        locations_data attendee_ids uuidGen
      if commitOk then (.ok true, s ++ ms, [.runInTransaction])
      else (.ok false, s, [.runInTransaction])

/-! ### Helper lemmas for the query-wrapper and insert theorems -/

/-- Building a Python dict from pairs with pairwise-distinct keys keeps
the pairs unchanged. -/
theorem pyDictAux_eq_append {V : Type} (l : List (String × V)) :
    ∀ acc, ((acc ++ l).map Prod.fst).Nodup → pyDictAux acc l = acc ++ l := by
  induction l with
  | nil => intro acc _; simp [pyDictAux]
  | cons kv t ih =>
      intro acc h
      have hnotin : (acc.any fun p => p.1 == kv.1) = false := by
        rw [List.any_eq_false]
        intro p hp
        simp only [List.map_append, List.map_cons, List.nodup_append] at h
        rcases h with ⟨-, -, hdisj⟩
        have hpk := hdisj (List.mem_map_of_mem Prod.fst hp)
        intro heq
        exact hpk (by simp [eq_of_beq heq])
      have hstep : pyDictInsert acc kv = acc ++ [kv] := by
        simp [pyDictInsert, hnotin]
      calc pyDictAux acc (kv :: t) = pyDictAux (pyDictInsert acc kv) t := rfl
        _ = (acc ++ [kv]) ++ t := by
              rw [hstep]
              exact ih (acc ++ [kv]) (by simpa using h)
        _ = acc ++ kv :: t := by simp

/-- `pyDict` is the identity on pair lists with pairwise-distinct keys. -/
theorem pyDict_eq_self {V : Type} (l : List (String × V))
    (h : (l.map Prod.fst).Nodup) : pyDict l = l := by
  simpa using pyDictAux_eq_append l [] (by simpa using h)

/-- The keys of a zip form a sublist of the key list. -/
theorem map_fst_zip_sublist {α β : Type} :
    ∀ (l1 : List α) (l2 : List β), ((l1.zip l2).map Prod.fst).Sublist l1 := by
  intro l1
  induction l1 with
  | nil => intro l2; simp
  | cons a t ih =>
      intro l2
      cases l2 with
      | nil => simp
      | cons b s => simpa using (ih s).cons₂ a

/-- Counting in a flatMap of two-element segments whose first element
satisfies the predicate and second does not. -/
theorem length_filter_flatMap_pair {α : Type} (f g : α → Mutation)
    (P : Mutation → Bool) (hf : ∀ p, P (f p) = true) (hg : ∀ p, P (g p) = false) :
    ∀ l : List α, ((l.flatMap fun p => [f p, g p]).filter P).length = l.length := by
  intro l
  induction l with
  | nil => rfl
  | cons a t ih =>
      simp [List.flatMap_cons, List.filter_append, List.filter_cons, hf, hg, ih]

/-- Counting in a flatMap of two-element segments whose second element
satisfies the predicate and first does not. -/
theorem length_filter_flatMap_pair₂ {α : Type} (f g : α → Mutation)
    (P : Mutation → Bool) (hf : ∀ p, P (f p) = false) (hg : ∀ p, P (g p) = true) :
    ∀ l : List α, ((l.flatMap fun p => [f p, g p]).filter P).length = l.length := by
  intro l
  induction l with
  | nil => rfl
  | cons a t ih =>
      simp [List.flatMap_cons, List.filter_append, List.filter_cons, hf, hg, ih]

/-- Counting in a flatMap of two-element segments neither of whose
elements satisfies the predicate. -/
theorem length_filter_flatMap_pair_none {α : Type} (f g : α → Mutation)
    (P : Mutation → Bool) (hf : ∀ p, P (f p) = false) (hg : ∀ p, P (g p) = false) :
    ∀ l : List α, ((l.flatMap fun p => [f p, g p]).filter P).length = 0 := by
  intro l
  induction l with
  | nil => rfl
  | cons a t ih =>
      simp [List.flatMap_cons, List.filter_append, List.filter_cons, hf, hg, ih]

/-- Counting in a map whose image always satisfies the predicate. -/
theorem length_filter_map_true {α : Type} (f : α → Mutation)
    (P : Mutation → Bool) (hf : ∀ a, P (f a) = true) :
    ∀ l : List α, ((l.map f).filter P).length = l.length := by
  intro l
  induction l with
  | nil => rfl
  | cons a t ih => simp [List.filter_cons, hf, ih]

/-- Counting in a map whose image never satisfies the predicate. -/
theorem length_filter_map_false {α : Type} (f : α → Mutation)
    (P : Mutation → Bool) (hf : ∀ a, P (f a) = false) :
    ∀ l : List α, ((l.map f).filter P).length = 0 := by
  intro l
  induction l with
  | nil => rfl
  | cons a t ih => simp [List.filter_cons, hf, ih]

/-! ### Claim theorems about the Spanner access layer -/

/-- C3 counterexample: an unexpected (non-Spanner-API) error inside
`run_query` is re-raised rather than swallowed (`raise e`, app.py line
136), and a database error in `run_graph_query` produces no flash
message at all (db.py only logs to the console). This contradicts the
claim that every database-call failure is surfaced as a flash message
and returns an empty or None result instead of raising. -/
theorem query_wrappers_error_claim_counterexample :
    (run_query true (.err (.other "unexpected failure")) (some ["person_id"]) none).result =
      .raised "unexpected failure"
    ∧ (run_graph_query true (.err (.spanner "table not found")) (some ["event_id"])).flashes
      = [] := by
  constructor
  · rfl
  · rfl

/-- C3 amended: `run_query` flashes and returns `[]` for the caught
Spanner API errors (NotFound/PermissionDenied/InvalidArgument) and for
the field-name ValueError, but on any other exception it flashes and
then re-raises; `run_graph_query` never flashes (it only logs) and
returns None on any error without raising. -/
theorem query_wrappers_error_handling_amended :
    (∀ (m f : String) (rest : List String) (dyn : Option (List String)),
       (run_query true (.err (.spanner m)) (some (f :: rest)) dyn).result = .ok [] ∧
       (run_query true (.err (.spanner m)) (some (f :: rest)) dyn).flashes =
         ["Database error: " ++ m])
    ∧ (∀ (m f : String) (rest : List String) (dyn : Option (List String)),
       (run_query true (.err (.other m)) (some (f :: rest)) dyn).result = .raised m ∧
       (run_query true (.err (.other m)) (some (f :: rest)) dyn).flashes =
         ["An unexpected server error occurred while fetching data."])
    ∧ (∀ (d : Bool) (o : DbOutcome) (ef : Option (List String)),
       (run_graph_query d o ef).flashes = [])
    ∧ (∀ (m f : String) (rest : List String),
       (run_graph_query true (.err (.spanner m)) (some (f :: rest))).result = none ∧
       (run_graph_query true (.err (.spanner m)) (some (f :: rest))).logs ≠ [])
    ∧ (∀ (m f : String) (rest : List String),
       (run_graph_query true (.err (.other m)) (some (f :: rest))).result = none) := by
  refine ⟨?_, ?_, ?_, ?_, ?_⟩
  · intro m f rest dyn
    constructor <;> simp [run_query]
  · intro m f rest dyn
    constructor <;> simp [run_query]
  · intro d o ef
    cases d with
    | false => rfl
    | true =>
        rcases ef with _ | fs
        · rfl
        · by_cases h : fs = []
          · simp [run_graph_query, h]
          · rcases o with rs | e
            · simp [run_graph_query, h]
            · rcases e with m | m <;> simp [run_graph_query, h]
  · intro m f rest
    constructor <;> simp [run_graph_query]
  · intro m f rest
    simp [run_graph_query]

/-- C5: no external call is ever retried — each invocation of
`run_query`, `run_graph_query`, `add_post_db` or
`add_full_event_with_details_db` issues the underlying external
operation (`snapshot.execute_sql` / `db.run_in_transaction`) at most
once, and a failure never triggers a second attempt. -/
theorem no_retry_single_external_call :
    (∀ (d : Bool) (o : DbOutcome) (ef dyn : Option (List String)),
       (run_query d o ef dyn).extOps.length ≤ 1)
    ∧ (∀ (d : Bool) (o : DbOutcome) (ef : Option (List String)),
       (run_graph_query d o ef).extOps.length ≤ 1)
    ∧ (∀ (d c : Bool) (pid aid text : String) (sent : Option String)
        (now : String) (s : List Mutation),
       (add_post_db d c pid aid text sent now s).2.2.length ≤ 1)
    ∧ (∀ (d c : Bool) (eid en desc : String) (ed : SqlVal)
        (locs : List LocationData) (atts : List String) (g : Nat → String)
        (s : List Mutation),
       (add_full_event_with_details_db d c eid en desc ed locs atts g s).2.2.length ≤ 1) := by
  refine ⟨?_, ?_, ?_, ?_⟩
  · intro d o ef dyn
    cases d with
    | false => simp [run_query]
    | true =>
        simp only [run_query]
        split
        · simp
        · split <;> simp
  · intro d o ef
    cases d with
    | false => simp [run_graph_query]
    | true =>
        simp only [run_graph_query]
        split
        · simp
        · split <;> simp
  · intro d c pid aid text sent now s
    cases d <;> cases c <;> simp [add_post_db]
  · intro d c eid en desc ed locs atts g s
    cases d <;> cases c <;> simp [add_full_event_with_details_db]

/-- C8: result-shape invariant. On a successful call with a non-empty,
duplicate-free `expected_fields` list, both wrappers return exactly one
record per row of matching length — the positional zip of the field
names with the row's values, so every record has exactly the expected
keys — and rows whose value count differs are skipped. -/
theorem query_wrappers_result_shape
    (f : String) (rest : List String) (rs : List (List SqlVal))
    (dyn : Option (List String)) (hnd : (f :: rest).Nodup) :
    (run_query true (.rows rs) (some (f :: rest)) dyn).result =
      .ok ((rs.filter (fun row => row.length = (f :: rest).length)).map
        (fun row => (f :: rest).zip row))
    ∧ (run_graph_query true (.rows rs) (some (f :: rest))).result =
      some ((rs.filter (fun row => row.length = (f :: rest).length)).map
        (fun row => (f :: rest).zip row))
    ∧ (∀ row ∈ rs, row.length = (f :: rest).length →
        ((f :: rest).zip row).map Prod.fst = f :: rest) := by
  have hpd : ∀ row : List SqlVal,
      pyDict ((f :: rest).zip row) = (f :: rest).zip row := by
    intro row
    exact pyDict_eq_self _ ((map_fst_zip_sublist _ _).nodup hnd)
  refine ⟨?_, ?_, ?_⟩
  · simp [run_query, hpd]
  · simp [run_graph_query, hpd]
  · intro row _ hlen
    exact List.map_fst_zip _ _ (le_of_eq hlen.symm)

/-- Witness for `query_wrappers_result_shape` at concrete fields and
rows (one matching row, one skipped short row). -/
theorem query_wrappers_result_shape_witness :
    ("a" :: ["b"]).Nodup ∧
    ((run_query true
        (.rows [[SqlVal.str "x", SqlVal.str "y"], [SqlVal.str "z"]])
        (some ("a" :: ["b"])) none).result =
      .ok ((([[SqlVal.str "x", SqlVal.str "y"], [SqlVal.str "z"]] :
            List (List SqlVal)).filter
          (fun row => row.length = ("a" :: ["b"]).length)).map
        (fun row => ("a" :: ["b"]).zip row))
    ∧ (run_graph_query true
        (.rows [[SqlVal.str "x", SqlVal.str "y"], [SqlVal.str "z"]])
        (some ("a" :: ["b"]))).result =
      some ((([[SqlVal.str "x", SqlVal.str "y"], [SqlVal.str "z"]] :
            List (List SqlVal)).filter
          (fun row => row.length = ("a" :: ["b"]).length)).map
        (fun row => ("a" :: ["b"]).zip row))
    ∧ (∀ row ∈ ([[SqlVal.str "x", SqlVal.str "y"], [SqlVal.str "z"]] :
          List (List SqlVal)), row.length = ("a" :: ["b"]).length →
        (("a" :: ["b"]).zip row).map Prod.fst = "a" :: ["b"])) :=
  ⟨by decide, query_wrappers_result_shape "a" ["b"] _ none (by decide)⟩

/-- C10: atomicity of event creation. The transaction body contains the
Event row, one Location row and one EventLocation link per entry of
`locations_data`, and one Attendance row per attendee id; the whole list
is issued in a single `run_in_transaction`; the call returns True with
all mutations appended exactly when the transaction commits, and False
with the database state unchanged when it raises. -/
theorem add_full_event_with_details_db_atomic
    (event_id event_name description : String) (event_date : SqlVal)
    (locations_data : List LocationData) (attendee_ids : List String)
    (uuidGen : Nat → String) (s : List Mutation) :
    add_full_event_with_details_db true true event_id event_name description
        event_date locations_data attendee_ids uuidGen s =
      (.ok true,
       s ++ _insert_event_and_attendee event_id event_name description event_date
         locations_data attendee_ids uuidGen,
       [.runInTransaction])
    ∧ add_full_event_with_details_db true false event_id event_name description
        event_date locations_data attendee_ids uuidGen s =
      (.ok false, s, [.runInTransaction])
    ∧ ((_insert_event_and_attendee event_id event_name description event_date
        locations_data attendee_ids uuidGen).filter
          (fun m => m.table == "Event")).length = 1
    ∧ ((_insert_event_and_attendee event_id event_name description event_date
        locations_data attendee_ids uuidGen).filter
          (fun m => m.table == "Location")).length = locations_data.length
    ∧ ((_insert_event_and_attendee event_id event_name description event_date
        locations_data attendee_ids uuidGen).filter
          (fun m => m.table == "EventLocation")).length = locations_data.length
    ∧ ((_insert_event_and_attendee event_id event_name description event_date
        locations_data attendee_ids uuidGen).filter
          (fun m => m.table == "Attendance")).length = attendee_ids.length := by
  have hloc := length_filter_flatMap_pair
    (fun p : Nat × LocationData => locationMutation (uuidGen p.1) p.2)
    (fun p : Nat × LocationData => eventLocationMutation event_id (uuidGen p.1))
    (fun m => m.table == "Location") (fun _ => rfl) (fun _ => rfl)
    locations_data.enum
  have hlink := length_filter_flatMap_pair₂
    (fun p : Nat × LocationData => locationMutation (uuidGen p.1) p.2)
    (fun p : Nat × LocationData => eventLocationMutation event_id (uuidGen p.1))
    (fun m => m.table == "EventLocation") (fun _ => rfl) (fun _ => rfl)
    locations_data.enum
  have hpairsEv := length_filter_flatMap_pair_none
    (fun p : Nat × LocationData => locationMutation (uuidGen p.1) p.2)
    (fun p : Nat × LocationData => eventLocationMutation event_id (uuidGen p.1))
    (fun m => m.table == "Event") (fun _ => rfl) (fun _ => rfl)
    locations_data.enum
  have hpairsAtt := length_filter_flatMap_pair_none
    (fun p : Nat × LocationData => locationMutation (uuidGen p.1) p.2)
    (fun p : Nat × LocationData => eventLocationMutation event_id (uuidGen p.1))
    (fun m => m.table == "Attendance") (fun _ => rfl) (fun _ => rfl)
    locations_data.enum
  have hatt := length_filter_map_true (attendanceMutation event_id)
    (fun m => m.table == "Attendance") (fun _ => rfl) attendee_ids
  have hattLoc := length_filter_map_false (attendanceMutation event_id)
    (fun m => m.table == "Location") (fun _ => rfl) attendee_ids
  have hattLink := length_filter_map_false (attendanceMutation event_id)
    (fun m => m.table == "EventLocation") (fun _ => rfl) attendee_ids
  have hattEv := length_filter_map_false (attendanceMutation event_id)
    (fun m => m.table == "Event") (fun _ => rfl) attendee_ids
  have hevEv : (([eventMutation event_id event_name description event_date] :
      List Mutation).filter (fun m => m.table == "Event")).length = 1 := rfl
  have hevLoc : (([eventMutation event_id event_name description event_date] :
      List Mutation).filter (fun m => m.table == "Location")).length = 0 := rfl
  have hevLink : (([eventMutation event_id event_name description event_date] :
      List Mutation).filter (fun m => m.table == "EventLocation")).length = 0 := rfl
  have hevAtt : (([eventMutation event_id event_name description event_date] :
      List Mutation).filter (fun m => m.table == "Attendance")).length = 0 := rfl
  refine ⟨rfl, rfl, ?_, ?_, ?_, ?_⟩
  · simp only [_insert_event_and_attendee, List.filter_append, List.length_append,
      hevEv, hpairsEv, hattEv]
  · simp only [_insert_event_and_attendee, List.filter_append, List.length_append,
      hevLoc, hloc, hattLoc]
    simp [List.enum_length]
  · simp only [_insert_event_and_attendee, List.filter_append, List.length_append,
      hevLink, hlink, hattLink]
    simp [List.enum_length]
  · simp only [_insert_event_and_attendee, List.filter_append, List.length_append,
      hevAtt, hpairsAtt, hatt]
    simp

/-! ### Query construction of the data-access functions

Each data-access function builds a fixed SQL/GQL text and passes caller
input only through the `params` dictionary together with a
`param_types` dictionary. The embeddings below record, for each
function, the request it hands to `run_query` / `run_graph_query`. -/

/-- A query request as passed to `snapshot.execute_sql`: the statement
text, the `params` dictionary, the `param_types` dictionary, and the
`expected_fields` list. -/
structure QueryRequest where
  sql : String
  params : List (String × SqlVal)
  paramTypes : List (String × SpannerType)
  expectedFields : List String
deriving Repr

/-- Every entry of the `params` dictionary has a declared Spanner
parameter type (the key sets of `params` and `param_types` coincide,
in order). -/
def QueryRequest.paramsDeclared (r : QueryRequest) : Bool :=
  r.params.map Prod.fst == r.paramTypes.map Prod.fst

/-- `get_person_db` (instavibe/app.py, lines 156-167). -/
def get_person_db_request (person_id : String) : QueryRequest :=
  { sql := "
        SELECT person_id, name, age
        FROM Person
        WHERE person_id = @person_id
    "
  , params := [("person_id", .str person_id)]
  , paramTypes := [("person_id", .STRING)]
  , expectedFields := ["person_id", "name", "age"] }

/-- `get_posts_by_person_db` (instavibe/app.py, lines 169-183). -/
def get_posts_by_person_db_request (person_id : String) : QueryRequest :=
  { sql := "
        SELECT
            p.post_id, p.author_id, p.text, p.sentiment, p.post_timestamp,
            author.name as author_name
        FROM Post AS p
        JOIN Person AS author ON p.author_id = author.person_id
        WHERE p.author_id = @person_id
        ORDER BY p.post_timestamp DESC
    "
  , params := [("person_id", .str person_id)]
  , paramTypes := [("person_id", .STRING)]
  , expectedFields := ["post_id", "author_id", "text", "sentiment", "post_timestamp",
                       "author_name"] }

/-- `get_friends_db` (instavibe/app.py, lines 185-200). -/
def get_friends_db_request (person_id : String) : QueryRequest :=
  { sql := "
        SELECT DISTINCT
            friend.person_id, friend.name
        FROM Friendship AS f
        JOIN Person AS friend ON
            (f.person_id_a = @person_id AND f.person_id_b = friend.person_id) OR
            (f.person_id_b = @person_id AND f.person_id_a = friend.person_id)
        WHERE f.person_id_a = @person_id OR f.person_id_b = @person_id
        ORDER BY friend.name
    "
  , params := [("person_id", .str person_id)]
  , paramTypes := [("person_id", .STRING)]
  , expectedFields := ["person_id", "name"] }

/-- `get_person_by_name_db` (instavibe/app.py, lines 352-368). -/
def get_person_by_name_db_request (name : String) : QueryRequest :=
  { sql := "SELECT person_id FROM Person WHERE name = @name LIMIT 1"
  , params := [("name", .str name)]
  , paramTypes := [("name", .STRING)]
  , expectedFields := ["person_id"] }

/-- `get_event_details_with_locations_attendees_db` (instavibe/app.py,
lines 243-290): the three queries it issues, in order, all sharing the
same `params` / `param_types` dictionaries. -/
def get_event_details_with_locations_attendees_db_requests
    (event_id : String) : List QueryRequest :=
  [ { sql := "
        SELECT event_id, name, description, event_date
        FROM Event
        WHERE event_id = @event_id
    "
    , params := [("event_id", .str event_id)]
    , paramTypes := [("event_id", .STRING)]
    , expectedFields := ["event_id", "name", "description", "event_date"] }
  , { sql := "
        SELECT l.location_id, l.name, l.description, l.latitude, l.longitude, l.address
        FROM Location AS l
        JOIN EventLocation AS el ON l.location_id = el.location_id
        WHERE el.event_id = @event_id
        ORDER BY l.name
    "
    , params := [("event_id", .str event_id)]
    , paramTypes := [("event_id", .STRING)]
    , expectedFields := ["location_id", "name", "description", "latitude", "longitude",
                         "address"] }
  , { sql := "
        SELECT p.person_id, p.name
        FROM Person AS p
        JOIN Attendance AS a ON p.person_id = a.person_id
        WHERE a.event_id = @event_id
        ORDER BY p.name
    "
    , params := [("event_id", .str event_id)]
    , paramTypes := [("event_id", .STRING)]
    , expectedFields := ["person_id", "name"] } ]

/-- `get_person_attended_events_json` (instavibe/db.py, lines 106-144). -/
def get_person_attended_events_json_request (person_id : String) : QueryRequest :=
  { sql := "
        Graph SocialGraph
        MATCH (p:Person)-[att:Attended]->(e:Event)
        WHERE p.person_id = @person_id
        RETURN e.event_id, e.name, e.event_date, att.attendance_time
        ORDER BY e.event_date DESC
    "
  , params := [("person_id", .str person_id)]
  , paramTypes := [("person_id", .STRING)]
  , expectedFields := ["event_id", "name", "event_date", "attendance_time"] }

/-- `get_all_posts_json` (instavibe/db.py, lines 147-183). -/
def get_all_posts_json_request (limit : Int) : QueryRequest :=
  { sql := "
        Graph SocialGraph
        MATCH (author:Person)-[w:Wrote]->(post:Post)
        RETURN post.post_id, post.author_id, post.text, post.sentiment, post.post_timestamp, author.name AS author_name
        ORDER BY post.post_timestamp DESC
        LIMIT @limit
    "
  , params := [("limit", .int limit)]
  , paramTypes := [("limit", .INT64)]
  , expectedFields := ["post_id", "author_id", "text", "sentiment", "post_timestamp",
                       "author_name"] }

/-- `get_person_friends_json` (instavibe/db.py, lines 186-215). -/
def get_person_friends_json_request (person_id : String) : QueryRequest :=
  { sql := "
        Graph SocialGraph
        MATCH (p:Person \x7bperson_id: @person_id\x7d)-[f:Friendship]-(friend:Person)
        RETURN DISTINCT friend.person_id, friend.name
        ORDER BY friend.name
    "
  , params := [("person_id", .str person_id)]
  , paramTypes := [("person_id", .STRING)]
  , expectedFields := ["person_id", "name"] }

/-- C2: every data-access operation taking caller input issues a query
text that is a fixed constant independent of the input (two runs with
different inputs produce identical statement strings), and the input
reaches the database only through the `params` dictionary, each entry
of which has a declared Spanner parameter type. -/
theorem data_access_queries_parameterized :
    (∀ a b, (get_person_db_request a).sql = (get_person_db_request b).sql)
    ∧ (∀ a, (get_person_db_request a).paramsDeclared = true)
    ∧ (∀ a b, (get_posts_by_person_db_request a).sql = (get_posts_by_person_db_request b).sql)
    ∧ (∀ a, (get_posts_by_person_db_request a).paramsDeclared = true)
    ∧ (∀ a b, (get_friends_db_request a).sql = (get_friends_db_request b).sql)
    ∧ (∀ a, (get_friends_db_request a).paramsDeclared = true)
    ∧ (∀ a b, (get_person_by_name_db_request a).sql = (get_person_by_name_db_request b).sql)
    ∧ (∀ a, (get_person_by_name_db_request a).paramsDeclared = true)
    ∧ (∀ a b, (get_event_details_with_locations_attendees_db_requests a).map QueryRequest.sql
        = (get_event_details_with_locations_attendees_db_requests b).map QueryRequest.sql)
    ∧ (∀ a, ((get_event_details_with_locations_attendees_db_requests a).all
        QueryRequest.paramsDeclared) = true)
    ∧ (∀ a b, (get_person_attended_events_json_request a).sql
        = (get_person_attended_events_json_request b).sql)
    ∧ (∀ a, (get_person_attended_events_json_request a).paramsDeclared = true)
    ∧ (∀ a b, (get_all_posts_json_request a).sql = (get_all_posts_json_request b).sql)
    ∧ (∀ a, (get_all_posts_json_request a).paramsDeclared = true)
    ∧ (∀ a b, (get_person_friends_json_request a).sql = (get_person_friends_json_request b).sql)
    ∧ (∀ a, (get_person_friends_json_request a).paramsDeclared = true) :=
  ⟨fun _ _ => rfl, fun _ => rfl, fun _ _ => rfl, fun _ => rfl,
   fun _ _ => rfl, fun _ => rfl, fun _ _ => rfl, fun _ => rfl,
   fun _ _ => rfl, fun _ => rfl, fun _ _ => rfl, fun _ => rfl,
   fun _ _ => rfl, fun _ => rfl, fun _ _ => rfl, fun _ => rfl⟩

/-! ### Schema tables (setup.py) -/

/-- The eight schema tables created by `setup_base_schema_and_indexes`
(instavibe/setup.py, lines 70-151). -/
def schemaTables : List String :=
  ["Person", "Event", "Post", "Friendship", "Attendance", "Mention",
   "Location", "EventLocation"]

/-- The label-to-table mapping of the `CREATE PROPERTY GRAPH SocialGraph`
definition (instavibe/setup.py, lines 161-193): node tables keep their
names; edge tables `Attendance AS Attended`, `Mention AS Mentioned`,
`Post AS Wrote`, `EventLocation AS HasLocation` are queried through
their aliases. -/
def socialGraphLabelTable : String → String
  | "Attended" => "Attendance"
  | "Mentioned" => "Mention"
  | "Wrote" => "Post"
  | "HasLocation" => "EventLocation"
  | l => l

/-- Tables referenced (FROM/JOIN/UNNEST or `transaction.insert`) by each
SQL statement and insert of the repository, by source location:
app.py `get_all_posts_with_author_db` (lines 144-151),
`get_person_db` (158-162), `get_posts_by_person_db` (171-179),
`get_friends_db` (187-196), `get_all_events_with_attendees_db`
(206-211 and 221-229), `get_event_details_with_locations_attendees_db`
(254-287), `get_person_by_name_db` (358), `add_post_db` (378-389),
`add_full_event_with_details_db` (425-464);
ally_routes.py `get_all_people_for_ally_page` (27-31);
setup.py `insert_data_txn` (627-636). -/
def repoSqlTableRefs : List (String × List String) :=
  [ ("app.get_all_posts_with_author_db", ["Post", "Person"])
  , ("app.get_person_db", ["Person"])
  , ("app.get_posts_by_person_db", ["Post", "Person"])
  , ("app.get_friends_db", ["Friendship", "Person"])
  , ("app.get_all_events_with_attendees_db.events", ["Event"])
  , ("app.get_all_events_with_attendees_db.attendees", ["Attendance", "Person"])
  , ("app.get_event_details_with_locations_attendees_db.event", ["Event"])
  , ("app.get_event_details_with_locations_attendees_db.locations",
     ["Location", "EventLocation"])
  , ("app.get_event_details_with_locations_attendees_db.attendees",
     ["Person", "Attendance"])
  , ("app.get_person_by_name_db", ["Person"])
  , ("app.add_post_db", ["Post"])
  , ("app.add_full_event_with_details_db",
     ["Event", "Location", "EventLocation", "Attendance"])
  , ("ally_routes.get_all_people_for_ally_page", ["Person"])
  , ("setup.insert_data_txn",
     ["Person", "Event", "Location", "Post", "Friendship", "Attendance",
      "Mention", "EventLocation"]) ]

/-- Graph labels referenced by each GQL query of instavibe/db.py:
`get_person_attended_events_json` (lines 121-127), `get_all_posts_json`
(162-168), `get_person_friends_json` (202-207). -/
def repoGqlLabelRefs : List (String × List String) :=
  [ ("db.get_person_attended_events_json", ["Person", "Attended", "Event"])
  , ("db.get_all_posts_json", ["Person", "Wrote", "Post"])
  , ("db.get_person_friends_json", ["Person", "Friendship", "Person"]) ]

/-- All table references of the repository: SQL/insert references plus
GQL label references resolved through the SocialGraph definition. -/
def repoTableRefs : List (String × List String) :=
  repoSqlTableRefs ++ repoGqlLabelRefs.map (fun p => (p.1, p.2.map socialGraphLabelTable))

/-- C6: every table name referenced by a SQL query, GQL query (its
labels resolved to the underlying tables through the SocialGraph
definition) or transactional insert of the repository is one of the
eight schema tables; in particular every mutation built by
`_insert_post` and `_insert_event_and_attendee` targets a schema
table. -/
theorem tables_within_schema :
    (repoTableRefs.all fun p => p.2.all fun t => schemaTables.contains t) = true
    ∧ (∀ (pid aid text : String) (sent : Option String) (now : String),
        ((_insert_post pid aid text sent now).all
          fun m => schemaTables.contains m.table) = true)
    ∧ (∀ (eid en desc : String) (ed : SqlVal) (locs : List LocationData)
        (atts : List String) (g : Nat → String),
        ((_insert_event_and_attendee eid en desc ed locs atts g).all
          fun m => schemaTables.contains m.table) = true) := by
  refine ⟨by decide, fun _ _ _ _ _ => rfl, ?_⟩
  intro eid en desc ed locs atts g
  rw [List.all_eq_true]
  intro m hm
  simp only [_insert_event_and_attendee, List.mem_append, List.mem_cons,
    List.not_mem_nil, or_false, List.mem_flatMap, List.mem_map] at hm
  rcases hm with (rfl | ⟨p, _, rfl | rfl⟩) | ⟨a, _, rfl⟩ <;> rfl

end Instavibe
